import Mathlib

/-!
# VolumetricCloudDemo — input router, matrix cache, frame driver, shader construction

A shallow embedding of `src/main.cpp` (globals, `mouse_callback`, `key_callback`,
`processInput`, the body of the render loop) and of `src/shader.h`
(`Shader::Shader`, `Shader::checkCompileErrors`).

Conventions of the embedding

* `GLfloat` / `double` values (pointer coordinates, time stamps, angles) are idealised:
  exact rationals in the input router and frame driver, real numbers in the
  sun-direction computation.
* The module-level globals of `main.cpp` are one record, `Globals`, threaded through
  every function.  The two pieces of window state the callbacks write
  (cursor input mode, close flag) are fields of the same record.
* `camera.h` is not among the sources.  The `Camera` object is represented by the
  sequence of mutating calls made on it since its construction; what `main.cpp`
  reads from it (`GetViewMatrix()`, `Zoom`) is supplied by `Externals`.
* What GLFW reports (key states, pointer position, queued events, time) and what the
  GL driver reports (object names, compile/link status, info logs) are inputs.
-/

namespace VolumetricCloudDemo

/-! ## Constants from `glfw3.h` -/

abbrev GLFW_RELEASE : Int := 0
abbrev GLFW_PRESS : Int := 1
abbrev GLFW_KEY_SPACE : Int := 32
abbrev GLFW_KEY_A : Int := 65
abbrev GLFW_KEY_D : Int := 68
abbrev GLFW_KEY_F : Int := 70
abbrev GLFW_KEY_R : Int := 82
abbrev GLFW_KEY_S : Int := 83
abbrev GLFW_KEY_W : Int := 87
abbrev GLFW_KEY_ESCAPE : Int := 256
abbrev GLFW_CURSOR_NORMAL : Int := 0x00034001
abbrev GLFW_CURSOR_DISABLED : Int := 0x00034003

/-! ## Constants from `main.cpp` -/

abbrev SCR_WIDTH : ℚ := 1920
abbrev SCR_HEIGHT : ℚ := 1080

/-! ## The Camera as seen from `main.cpp` -/

/-- The `Camera_Movement` enumeration passed to `Camera::ProcessKeyboard`. -/
inductive Camera_Movement
  | FORWARD | BACKWARD | LEFT | RIGHT | UP | DOWN
  deriving DecidableEq, Repr

/-- One mutating call made on the `Camera` object, with its arguments. -/
inductive CameraCall
  | ProcessKeyboard (direction : Camera_Movement) (deltaTime : ℚ)
  | ProcessMouseMovement (xoffset yoffset : ℚ)
  deriving DecidableEq

/-- The global `camera`: the mutating calls it has received since construction,
oldest first.  Any deterministic implementation of `camera.h` has a state that is a
function of this history. -/
structure Camera where
  calls : List CameraCall
  deriving DecidableEq

/-- Effect of `camera.ProcessKeyboard(direction, deltaTime)`. -/
def Camera.ProcessKeyboard (c : Camera) (direction : Camera_Movement) (deltaTime : ℚ) : Camera :=
  { calls := c.calls ++ [CameraCall.ProcessKeyboard direction deltaTime] }

/-- Effect of `camera.ProcessMouseMovement(xoffset, yoffset)`. -/
def Camera.ProcessMouseMovement (c : Camera) (xoffset yoffset : ℚ) : Camera :=
  { calls := c.calls ++ [CameraCall.ProcessMouseMovement xoffset yoffset] }

/-- A `glm::mat4` with idealised entries. -/
abbrev Mat4 := Matrix (Fin 4) (Fin 4) ℚ

/-- What the render loop obtains from code outside `main.cpp`: the two observers of
the `Camera` (`camera.h`) and the `glm` functions of the matrix step. -/
structure Externals where
  /-- The result of `camera.GetViewMatrix()`. -/
  GetViewMatrix : Camera → Mat4
  /-- The field `camera.Zoom`. -/
  Zoom : Camera → ℚ
  /-- The function `glm::radians`. -/
  radians : ℚ → ℚ
  /-- The function `glm::perspective(fovy, aspect, zNear, zFar)`. -/
  perspective : ℚ → ℚ → ℚ → ℚ → Mat4
  /-- The function `glm::inverse`. -/
  inverse : Mat4 → Mat4

/-! ## Globals of `main.cpp` -/

/-- The mutable globals of `main.cpp` (lines 22-32) and the window state written by
the callbacks. -/
structure Globals where
  deltaTime : ℚ
  lastFrame : ℚ
  camera : Camera
  firstMouse : Bool
  lastX : ℚ
  lastY : ℚ
  view : Mat4
  projection : Mat4
  ivpm : Mat4
  mouseControlsCamera : Bool
  cameraDirty : Bool
  /-- The window: value of the `GLFW_CURSOR` input mode. -/
  cursorMode : Int
  /-- The window: the flag read by `glfwWindowShouldClose`. -/
  windowShouldClose : Bool

/-- The globals when the render loop is first entered.  `mat0` is the value of a
default-constructed `glm::mat4` (it depends on the GLM version); the cursor mode was
set to `GLFW_CURSOR_DISABLED` at line 109. -/
def initialGlobals (mat0 : Mat4) : Globals :=
  { deltaTime := 0
    lastFrame := 0
    camera := { calls := [] }
    firstMouse := true
    lastX := SCR_WIDTH / 2
    lastY := SCR_HEIGHT / 2
    view := mat0
    projection := mat0
    ivpm := mat0
    mouseControlsCamera := true
    cameraDirty := false
    cursorMode := GLFW_CURSOR_DISABLED
    windowShouldClose := false }

/-! ## Input router -/

/-- The function `mouse_callback(window, xpos, ypos)`, lines 244-262. -/
def mouse_callback (xpos ypos : ℚ) (g : Globals) : Globals :=
  if g.mouseControlsCamera then
    let g1 : Globals :=
      if g.firstMouse then { g with lastX := xpos, lastY := ypos, firstMouse := false } else g
    let xoffset := xpos - g1.lastX
    let yoffset := g1.lastY - ypos
    let g2 : Globals := { g1 with lastX := xpos, lastY := ypos }
    let g3 : Globals := { g2 with camera := g2.camera.ProcessMouseMovement xoffset yoffset }
    { g3 with cameraDirty := true }
  else g

/-- The function `key_callback(window, key, scancode, action, mods)`, lines 264-277.
`cursorPos` is what `glfwGetCursorPos` reports during the call.  The `if`/`else` on
`mouseControlsCamera` is not governed by the test on the space key: that test governs
the single statement that follows it. -/
def key_callback (cursorPos : ℚ × ℚ) (key _scancode action _mods : Int) (g : Globals) :
    Globals :=
  let g1 : Globals :=
    if key = GLFW_KEY_ESCAPE ∧ action = GLFW_PRESS then { g with windowShouldClose := true } else g
  let g2 : Globals :=
    if key = GLFW_KEY_SPACE ∧ action = GLFW_PRESS then
      { g1 with mouseControlsCamera := !g1.mouseControlsCamera }
    else g1
  if g2.mouseControlsCamera then
    { g2 with lastX := cursorPos.1, lastY := cursorPos.2, cursorMode := GLFW_CURSOR_DISABLED }
  else
    { g2 with cursorMode := GLFW_CURSOR_NORMAL }

/-- The function `processInput(window)`, lines 279-299.  `glfwGetKey` is the key-state
query of the window.  Each `if` governs the single call that follows it; each
assignment to `cameraDirty` is a statement of its own. -/
def processInput (glfwGetKey : Int → Int) (g : Globals) : Globals :=
  let g1 : Globals :=
    if glfwGetKey GLFW_KEY_W = GLFW_PRESS then
      { g with camera := g.camera.ProcessKeyboard Camera_Movement.FORWARD g.deltaTime } else g
  let g1 : Globals := { g1 with cameraDirty := true }
  let g2 : Globals :=
    if glfwGetKey GLFW_KEY_S = GLFW_PRESS then
      { g1 with camera := g1.camera.ProcessKeyboard Camera_Movement.BACKWARD g1.deltaTime } else g1
  let g2 : Globals := { g2 with cameraDirty := true }
  let g3 : Globals :=
    if glfwGetKey GLFW_KEY_A = GLFW_PRESS then
      { g2 with camera := g2.camera.ProcessKeyboard Camera_Movement.LEFT g2.deltaTime } else g2
  let g3 : Globals := { g3 with cameraDirty := true }
  let g4 : Globals :=
    if glfwGetKey GLFW_KEY_D = GLFW_PRESS then
      { g3 with camera := g3.camera.ProcessKeyboard Camera_Movement.RIGHT g3.deltaTime } else g3
  let g4 : Globals := { g4 with cameraDirty := true }
  let g5 : Globals :=
    if glfwGetKey GLFW_KEY_R = GLFW_PRESS then
      { g4 with camera := g4.camera.ProcessKeyboard Camera_Movement.UP g4.deltaTime } else g4
  let g5 : Globals := { g5 with cameraDirty := true }
  let g6 : Globals :=
    if glfwGetKey GLFW_KEY_F = GLFW_PRESS then
      { g5 with camera := g5.camera.ProcessKeyboard Camera_Movement.DOWN g5.deltaTime } else g5
  { g6 with cameraDirty := true }

/-! ## Frame driver -/

/-- An event delivered to a callback while `glfwPollEvents` runs. -/
inductive Event
  /-- Pointer motion: `mouse_callback(window, xpos, ypos)`. -/
  | CursorPos (xpos ypos : ℚ)
  /-- A key event: `key_callback(window, key, scancode, action, mods)`; `cursorPos` is
  the pointer position `glfwGetCursorPos` reports at that time. -/
  | Key (cursorPos : ℚ × ℚ) (key scancode action mods : Int)

/-- The callback registered for an event (lines 107-108). -/
def dispatch (e : Event) (g : Globals) : Globals :=
  match e with
  | Event.CursorPos xpos ypos => mouse_callback xpos ypos g
  | Event.Key cursorPos key scancode action mods => key_callback cursorPos key scancode action mods g

/-- The call `glfwPollEvents()`: the queued events reach their callbacks in order. -/
def glfwPollEvents (events : List Event) (g : Globals) : Globals :=
  events.foldl (fun acc e => dispatch e acc) g

/-- The matrix step, lines 191-195. -/
def matrixStep (ext : Externals) (g : Globals) : Globals :=
  if g.cameraDirty then
    let g1 : Globals := { g with view := ext.GetViewMatrix g.camera }
    let g2 : Globals :=
      { g1 with projection :=
          ext.perspective (ext.radians (ext.Zoom g1.camera)) (SCR_WIDTH / SCR_HEIGHT) (1 / 10) 100 }
    { g2 with ivpm := ext.inverse (g2.projection * g2.view) }
  else g

/-- What the environment supplies to one iteration of the render loop. -/
structure FrameInput where
  /-- The value of `glfwGetTime()` at line 179. -/
  currentFrame : ℚ
  /-- The key states `glfwGetKey` reports during `processInput`. -/
  glfwGetKey : Int → Int
  /-- The events `glfwPollEvents` delivers at line 235. -/
  events : List Event

/-- What one iteration hands to the shader at lines 203-205, together with the `Camera`
as it is at that moment and the value `cameraDirty` had when line 191 tested it. -/
structure Pushed where
  dirtyAtMatrixStep : Bool
  camera : Camera
  ivpm : Mat4
  view : Mat4
  projection : Mat4

/-- One iteration of the render loop, lines 179-237.  `drawGUI` and the ImGui calls
write only the shader parameters, which are not part of `Globals`. -/
def loopBody (ext : Externals) (inp : FrameInput) (g : Globals) : Globals × Pushed :=
  let g1 : Globals :=
    { g with deltaTime := inp.currentFrame - g.lastFrame, lastFrame := inp.currentFrame }
  let g2 := processInput inp.glfwGetKey g1
  let g3 := matrixStep ext g2
  let pushed : Pushed :=
    { dirtyAtMatrixStep := g2.cameraDirty
      camera := g3.camera
      ivpm := g3.ivpm
      view := g3.view
      projection := g3.projection }
  let g4 := glfwPollEvents inp.events g3
  ({ g4 with cameraDirty := false }, pushed)

/-- The render loop, lines 177-238, run on the inputs of successive iterations: it
stops when the window is flagged to close (or the supplied inputs are used up), and
returns the globals then and what each iteration pushed. -/
def renderLoop (ext : Externals) : List FrameInput → Globals → Globals × List Pushed
  | [], g => (g, [])
  | inp :: rest, g =>
    if g.windowShouldClose then (g, [])
    else
      let r := loopBody ext inp g
      let rs := renderLoop ext rest r.1
      (rs.1, r.2 :: rs.2)

/-! ## Specification-side definitions and example inputs -/

/-- The six movement keys with the direction the spec binds to each, in polling order. -/
def movementKeys : List (Int × Camera_Movement) :=
  [ (GLFW_KEY_W, Camera_Movement.FORWARD), (GLFW_KEY_S, Camera_Movement.BACKWARD),
    (GLFW_KEY_A, Camera_Movement.LEFT), (GLFW_KEY_D, Camera_Movement.RIGHT),
    (GLFW_KEY_R, Camera_Movement.UP), (GLFW_KEY_F, Camera_Movement.DOWN) ]

/-- The keyboard routing the spec asks for: one `ProcessKeyboard` call, carrying
`deltaTime`, for each movement key reported as pressed, in the order of `movementKeys`. -/
def keyboardCalls (glfwGetKey : Int → Int) (deltaTime : ℚ) : List CameraCall :=
  (movementKeys.filter (fun kd => decide (glfwGetKey kd.1 = GLFW_PRESS))).map
    (fun kd => CameraCall.ProcessKeyboard kd.2 deltaTime)

/-- Key states with no key held. -/
def noKeys : Int → Int := fun _ => GLFW_RELEASE

/-- Key states with only `W` held. -/
def onlyW : Int → Int := fun k => if k = GLFW_KEY_W then GLFW_PRESS else GLFW_RELEASE

/-- Key states with `W` and `D` held. -/
def keysWD : Int → Int :=
  fun k => if k = GLFW_KEY_W ∨ k = GLFW_KEY_D then GLFW_PRESS else GLFW_RELEASE

/-- Start-up followed by one pointer-motion event at the window centre. -/
def afterFirstMotion : Globals := mouse_callback 960 540 (initialGlobals 0)

/-- Then a press of the space key: capture mode is left. -/
def afterLeave : Globals := key_callback (960, 540) GLFW_KEY_SPACE 0 GLFW_PRESS 0 afterFirstMotion

/-- Then a second press of the space key with the pointer at (100, 100): capture mode
is entered again. -/
def afterReentry : Globals := key_callback (100, 100) GLFW_KEY_SPACE 0 GLFW_PRESS 0 afterLeave

/-- Start-up followed by one press of the space key: capture mode is off and no
pointer-motion event has been handled. -/
def leftAtStart : Globals := key_callback (960, 540) GLFW_KEY_SPACE 0 GLFW_PRESS 0 (initialGlobals 0)

/-- The state at line 183 of an iteration at time 1/60 entered from `leftAtStart`. -/
def leftMidFrame : Globals := { leftAtStart with deltaTime := 1 / 60, lastFrame := 1 / 60 }

/-- An iteration at time `t` with no key held and no event queued. -/
def idleFrame (t : ℚ) : FrameInput := { currentFrame := t, glfwGetKey := noKeys, events := [] }

/-- An iteration at time 1/60 with no key held whose event poll delivers two
pointer-motion events, at (960, 540) and at (970, 540). -/
def lookFrame : FrameInput :=
  { currentFrame := 1 / 60
    glfwGetKey := noKeys
    events := [Event.CursorPos 960 540, Event.CursorPos 970 540] }

/-- The three matrices of the matrix step computed from a `Camera` state. -/
def Consistent (ext : Externals) (camera : Camera) (view projection ivpm : Mat4) : Prop :=
  view = ext.GetViewMatrix camera ∧
    projection = ext.perspective (ext.radians (ext.Zoom camera)) (1920 / 1080) (1 / 10) 100 ∧
    ivpm = ext.inverse (projection * view)

/-- What an iteration pushed is fresh: `cameraDirty` was true at the matrix step and the
pushed matrices are those computed from the `Camera` as it is at that moment. -/
def Pushed.Fresh (ext : Externals) (p : Pushed) : Prop :=
  p.dirtyAtMatrixStep = true ∧ Consistent ext p.camera p.view p.projection p.ivpm

/-! ## Sun direction (lines 197-200), over the reals -/

/-- A `glm::vec3` with real components. -/
@[ext]
structure Vec3 where
  x : ℝ
  y : ℝ
  z : ℝ

/-- The function `glm::normalize` on a `vec3`: `v * inversesqrt(dot(v, v))`. -/
noncomputable def normalize (v : Vec3) : Vec3 :=
  let k := 1 / Real.sqrt (v.x * v.x + v.y * v.y + v.z * v.z)
  { x := v.x * k, y := v.y * k, z := v.z * k }

/-- The function `glm::rotate(v, angle, normal)` of `glm/gtx/rotate_vector.hpp`: `v`
multiplied by the upper-left 3x3 block of `glm::rotate(angle, normal)`, the matrix GLM
builds from the cosine and sine of `angle` and the normalised axis.  `cIJ` is GLM's
`Rotate[I][J]`, the entry of column `I` and row `J`. -/
noncomputable def rotate (v : Vec3) (angle : ℝ) (normal : Vec3) : Vec3 :=
  let c := Real.cos angle
  let s := Real.sin angle
  let axis := normalize normal
  let temp : Vec3 := { x := (1 - c) * axis.x, y := (1 - c) * axis.y, z := (1 - c) * axis.z }
  let c00 := c + temp.x * axis.x
  let c01 := temp.x * axis.y + s * axis.z
  let c02 := temp.x * axis.z - s * axis.y
  let c10 := temp.y * axis.x - s * axis.z
  let c11 := c + temp.y * axis.y
  let c12 := temp.y * axis.z + s * axis.x
  let c20 := temp.z * axis.x + s * axis.y
  let c21 := temp.z * axis.y - s * axis.x
  let c22 := c + temp.z * axis.z
  { x := c00 * v.x + c10 * v.y + c20 * v.z
    y := c01 * v.x + c11 * v.y + c21 * v.z
    z := c02 * v.x + c12 * v.y + c22 * v.z }

/-- The value of `sunDir` handed to `setVec3("sunDirection", sunDir)`, lines 198-200 and
210, as a function of the globals `sunAltitude` and `sunAzimuth`. -/
noncomputable def sunDirection (sunAltitude sunAzimuth : ℝ) : Vec3 :=
  let sunDir : Vec3 := { x := 0, y := 0, z := 1 }
  let sunDir := rotate sunDir sunAltitude { x := -1, y := 0, z := 0 }
  rotate sunDir sunAzimuth { x := 0, y := 1, z := 0 }

/-- Rotation of `v` by `angle` about the world X axis, the axis taken with the
direction `(-1, 0, 0)`: the right-handed rotation about `(1, 0, 0)` by `-angle`. -/
noncomputable def rotateAboutNegX (angle : ℝ) (v : Vec3) : Vec3 :=
  { x := v.x
    y := Real.cos angle * v.y + Real.sin angle * v.z
    z := -Real.sin angle * v.y + Real.cos angle * v.z }

/-- Right-handed rotation of `v` by `angle` about the world Y axis `(0, 1, 0)`. -/
noncomputable def rotateAboutY (angle : ℝ) (v : Vec3) : Vec3 :=
  { x := Real.cos angle * v.x + Real.sin angle * v.z
    y := v.y
    z := -Real.sin angle * v.x + Real.cos angle * v.z }

/-! ## Shader program construction (`shader.h`) -/

abbrev GL_FRAGMENT_SHADER : Nat := 0x8B30
abbrev GL_VERTEX_SHADER : Nat := 0x8B31

/-- A call into the GL made by the `Shader` constructor. -/
inductive GLCall
  | CreateShader (type : Nat)
  | ShaderSource (shader : Nat) (source : String)
  | CompileShader (shader : Nat)
  /-- The query `glGetShaderiv(shader, GL_COMPILE_STATUS, &success)`. -/
  | GetShaderiv (shader : Nat)
  | GetShaderInfoLog (shader : Nat)
  | CreateProgram
  | AttachShader (program shader : Nat)
  | LinkProgram (program : Nat)
  /-- The query `glGetProgramiv(shader, GL_LINK_STATUS, &success)`. -/
  | GetProgramiv (program : Nat)
  | GetProgramInfoLog (program : Nat)
  | DeleteShader (shader : Nat)
  deriving DecidableEq

/-- What the GL driver answers: the object names it hands out and, per object, the
status and info log the queries of `checkCompileErrors` read. -/
structure GLDriver where
  createShader : Nat → Nat
  createProgram : Nat
  compileStatus : Nat → Int
  shaderInfoLog : Nat → String
  linkStatus : Nat → Int
  programInfoLog : Nat → String

/-- The effects of the constructor so far: the GL calls made and the lines written to
`std::cout` (one entry per statement ended by `std::endl`). -/
structure Run where
  gl : List GLCall
  cout : List String

/-- The method `Shader::checkCompileErrors(shader, type)`, lines 97-113. -/
def checkCompileErrors (drv : GLDriver) (shader : Nat) (type : String) (r : Run) : Run :=
  if type ≠ "PROGRAM" then
    let success := drv.compileStatus shader
    let r1 : Run := { r with gl := r.gl ++ [GLCall.GetShaderiv shader] }
    if success = 0 then
      let infoLog := drv.shaderInfoLog shader
      { gl := r1.gl ++ [GLCall.GetShaderInfoLog shader]
        cout := r1.cout ++
          ["ERROR::SHADER_COMPILATION_ERROR of type: " ++ type ++ "\n" ++ infoLog ++
            "\n -- --------------------------------------------------- -- "] }
    else r1
  else
    let success := drv.linkStatus shader
    let r1 : Run := { r with gl := r.gl ++ [GLCall.GetProgramiv shader] }
    if success = 0 then
      let infoLog := drv.programInfoLog shader
      { gl := r1.gl ++ [GLCall.GetProgramInfoLog shader]
        cout := r1.cout ++
          ["ERROR::PROGRAM_LINKING_ERROR of type: " ++ type ++ "\n" ++ infoLog ++
            "\n -- --------------------------------------------------- -- "] }
    else r1

/-- A constructed `Shader`: its private member `ID`. -/
structure Shader where
  ID : Nat

/-- The constructor `Shader::Shader(vertexPath, fragmentPath)`, lines 17-68.  `files` is
the outcome of the `try` block: the two source texts, or the message of the
`std::system_error` thrown while opening or reading, in which case both texts stay
empty. -/
def Shader.Shader (drv : GLDriver) (files : Except String (String × String)) : Shader × Run :=
  let r0 : Run := { gl := [], cout := [] }
  let vertexCode : String := match files with
    | Except.ok src => src.1
    | Except.error _ => ""
  let fragmentCode : String := match files with
    | Except.ok src => src.2
    | Except.error _ => ""
  let r1 : Run := match files with
    | Except.ok _ => r0
    | Except.error what =>
      { r0 with cout := r0.cout ++ ["ERROR::SHADER::FILE_NOT_SUCCESFULLY_READ: " ++ what] }
  let vertex := drv.createShader GL_VERTEX_SHADER
  let r2 : Run :=
    { r1 with gl := r1.gl ++ [GLCall.CreateShader GL_VERTEX_SHADER,
        GLCall.ShaderSource vertex vertexCode, GLCall.CompileShader vertex] }
  let r3 := checkCompileErrors drv vertex "VERTEX" r2
  let fragment := drv.createShader GL_FRAGMENT_SHADER
  let r4 : Run :=
    { r3 with gl := r3.gl ++ [GLCall.CreateShader GL_FRAGMENT_SHADER,
        GLCall.ShaderSource fragment fragmentCode, GLCall.CompileShader fragment] }
  let r5 := checkCompileErrors drv fragment "FRAGMENT" r4
  let ID := drv.createProgram
  let r6 : Run :=
    { r5 with gl := r5.gl ++ [GLCall.CreateProgram, GLCall.AttachShader ID vertex,
        GLCall.AttachShader ID fragment, GLCall.LinkProgram ID] }
  let r7 := checkCompileErrors drv ID "PROGRAM" r6
  let r8 : Run :=
    { r7 with gl := r7.gl ++ [GLCall.DeleteShader vertex, GLCall.DeleteShader fragment] }
  ({ ID := ID }, r8)

/-- Whether a GL call only reads a status or a log. -/
def GLCall.isQuery : GLCall → Bool
  | GLCall.GetShaderiv _ => true
  | GLCall.GetShaderInfoLog _ => true
  | GLCall.GetProgramiv _ => true
  | GLCall.GetProgramInfoLog _ => true
  | _ => false

/-- One build step of the constructor as the spec describes it: its label, the status
the driver reports for it, and the diagnostic text a failure produces. -/
structure BuildStep where
  label : String
  status : Int
  diagnostic : String

/-- The three build steps, in order: vertex compile, fragment compile, program link. -/
def buildSteps (drv : GLDriver) : List BuildStep :=
  [ { label := "VERTEX"
      status := drv.compileStatus (drv.createShader GL_VERTEX_SHADER)
      diagnostic := "ERROR::SHADER_COMPILATION_ERROR of type: VERTEX\n" ++
        drv.shaderInfoLog (drv.createShader GL_VERTEX_SHADER) ++
        "\n -- --------------------------------------------------- -- " },
    { label := "FRAGMENT"
      status := drv.compileStatus (drv.createShader GL_FRAGMENT_SHADER)
      diagnostic := "ERROR::SHADER_COMPILATION_ERROR of type: FRAGMENT\n" ++
        drv.shaderInfoLog (drv.createShader GL_FRAGMENT_SHADER) ++
        "\n -- --------------------------------------------------- -- " },
    { label := "PROGRAM"
      status := drv.linkStatus drv.createProgram
      diagnostic := "ERROR::PROGRAM_LINKING_ERROR of type: PROGRAM\n" ++
        drv.programInfoLog drv.createProgram ++
        "\n -- --------------------------------------------------- -- " } ]

/-- The diagnostics the spec asks for: one per build step whose status is failure. -/
def expectedDiagnostics (drv : GLDriver) : List String :=
  ((buildSteps drv).filter (fun st => decide (st.status = 0))).map BuildStep.diagnostic

/-- A driver handing out the names 1, 2 (shaders) and 3 (program) whose statuses are
the given ones. -/
def driverWith (vertexStatus fragmentStatus linkStatus : Int) : GLDriver :=
  { createShader := fun type => if type = GL_VERTEX_SHADER then 1 else 2
    createProgram := 3
    compileStatus := fun shader => if shader = 1 then vertexStatus else fragmentStatus
    shaderInfoLog := fun shader => if shader = 1 then "vertex log" else "fragment log"
    linkStatus := fun _ => linkStatus
    programInfoLog := fun _ => "link log" }

/-! ## Shared lemmas: what each routine writes -/

theorem mouse_callback_of_not_captured (xpos ypos : ℚ) (g : Globals)
    (h : g.mouseControlsCamera = false) : mouse_callback xpos ypos g = g := by
  simp [mouse_callback, h]

theorem mouse_callback_calls_of_captured (xpos ypos : ℚ) (g : Globals)
    (h : g.mouseControlsCamera = true) :
    (mouse_callback xpos ypos g).camera.calls =
      g.camera.calls ++
        [if g.firstMouse = true then CameraCall.ProcessMouseMovement 0 0
         else CameraCall.ProcessMouseMovement (xpos - g.lastX) (g.lastY - ypos)] := by
  cases hf : g.firstMouse <;> simp [mouse_callback, h, hf, Camera.ProcessMouseMovement]

theorem processInput_calls (glfwGetKey : Int → Int) (g : Globals) :
    (processInput glfwGetKey g).camera.calls =
      g.camera.calls ++ keyboardCalls glfwGetKey g.deltaTime := by
  simp only [processInput, keyboardCalls, movementKeys, Camera.ProcessKeyboard]
  by_cases hW : glfwGetKey GLFW_KEY_W = GLFW_PRESS <;>
  by_cases hS : glfwGetKey GLFW_KEY_S = GLFW_PRESS <;>
  by_cases hA : glfwGetKey GLFW_KEY_A = GLFW_PRESS <;>
  by_cases hD : glfwGetKey GLFW_KEY_D = GLFW_PRESS <;>
  by_cases hR : glfwGetKey GLFW_KEY_R = GLFW_PRESS <;>
  by_cases hF : glfwGetKey GLFW_KEY_F = GLFW_PRESS <;>
  simp [hW, hS, hA, hD, hR, hF]

theorem keyboardCalls_eq (glfwGetKey : Int → Int) (deltaTime : ℚ) :
    keyboardCalls glfwGetKey deltaTime =
      (if glfwGetKey GLFW_KEY_W = GLFW_PRESS then
          [CameraCall.ProcessKeyboard Camera_Movement.FORWARD deltaTime] else []) ++
      ((if glfwGetKey GLFW_KEY_S = GLFW_PRESS then
          [CameraCall.ProcessKeyboard Camera_Movement.BACKWARD deltaTime] else []) ++
      ((if glfwGetKey GLFW_KEY_A = GLFW_PRESS then
          [CameraCall.ProcessKeyboard Camera_Movement.LEFT deltaTime] else []) ++
      ((if glfwGetKey GLFW_KEY_D = GLFW_PRESS then
          [CameraCall.ProcessKeyboard Camera_Movement.RIGHT deltaTime] else []) ++
      ((if glfwGetKey GLFW_KEY_R = GLFW_PRESS then
          [CameraCall.ProcessKeyboard Camera_Movement.UP deltaTime] else []) ++
      (if glfwGetKey GLFW_KEY_F = GLFW_PRESS then
          [CameraCall.ProcessKeyboard Camera_Movement.DOWN deltaTime] else []))))) := by
  simp only [keyboardCalls, movementKeys]
  by_cases hW : glfwGetKey GLFW_KEY_W = GLFW_PRESS <;>
  by_cases hS : glfwGetKey GLFW_KEY_S = GLFW_PRESS <;>
  by_cases hA : glfwGetKey GLFW_KEY_A = GLFW_PRESS <;>
  by_cases hD : glfwGetKey GLFW_KEY_D = GLFW_PRESS <;>
  by_cases hR : glfwGetKey GLFW_KEY_R = GLFW_PRESS <;>
  by_cases hF : glfwGetKey GLFW_KEY_F = GLFW_PRESS <;>
  simp [hW, hS, hA, hD, hR, hF]

theorem processInput_eq (glfwGetKey : Int → Int) (g : Globals) :
    processInput glfwGetKey g =
      { g with
        camera := { calls := g.camera.calls ++ keyboardCalls glfwGetKey g.deltaTime }
        cameraDirty := true } := by
  simp only [processInput, keyboardCalls, movementKeys, Camera.ProcessKeyboard]
  by_cases hW : glfwGetKey GLFW_KEY_W = GLFW_PRESS <;>
  by_cases hS : glfwGetKey GLFW_KEY_S = GLFW_PRESS <;>
  by_cases hA : glfwGetKey GLFW_KEY_A = GLFW_PRESS <;>
  by_cases hD : glfwGetKey GLFW_KEY_D = GLFW_PRESS <;>
  by_cases hR : glfwGetKey GLFW_KEY_R = GLFW_PRESS <;>
  by_cases hF : glfwGetKey GLFW_KEY_F = GLFW_PRESS <;>
  simp [hW, hS, hA, hD, hR, hF]

theorem keyboardCalls_noKeys (deltaTime : ℚ) : keyboardCalls noKeys deltaTime = [] := by
  simp [keyboardCalls, movementKeys, noKeys]

theorem processInput_cameraDirty (glfwGetKey : Int → Int) (g : Globals) :
    (processInput glfwGetKey g).cameraDirty = true := by
  simp [processInput]

/-! ## Input router: pointer motion -/

/-- C6. A pointer-motion event at `(xpos, ypos)` handled in capture mode routes exactly
one `ProcessMouseMovement` call: when it is not the first sample the offset is
`(xpos - lastX, lastY - ypos)`; when it is the first sample the offset relative to the
stored position is dropped and zero motion `(0, 0)` is what reaches the Camera.  In both
cases `cameraDirty` becomes true, `lastX = xpos`, `lastY = ypos`, and the first-sample
flag is cleared. -/
theorem mouse_callback_offset (xpos ypos : ℚ) (g : Globals)
    (hcap : g.mouseControlsCamera = true) :
    (mouse_callback xpos ypos g).camera.calls =
        g.camera.calls ++
          [if g.firstMouse = true then CameraCall.ProcessMouseMovement 0 0
           else CameraCall.ProcessMouseMovement (xpos - g.lastX) (g.lastY - ypos)] ∧
      (mouse_callback xpos ypos g).cameraDirty = true ∧
      (mouse_callback xpos ypos g).lastX = xpos ∧
      (mouse_callback xpos ypos g).lastY = ypos ∧
      (mouse_callback xpos ypos g).firstMouse = false := by
  refine ⟨mouse_callback_calls_of_captured xpos ypos g hcap, ?_, ?_, ?_, ?_⟩
  · simp [mouse_callback, hcap]
  · simp [mouse_callback, hcap]
  · simp [mouse_callback, hcap]
  · cases hf : g.firstMouse <;> simp [mouse_callback, hcap, hf]

/-- C6 at a concrete input: start-up globals (first sample pending, stored position
(960, 540)) and then a second event; the first routes `(0, 0)` although the pointer is at
(700, 300), the second routes `(10, -20)`. -/
theorem mouse_callback_offset_witness :
    (initialGlobals 0).mouseControlsCamera = true ∧
      (mouse_callback 710 320 (mouse_callback 700 300 (initialGlobals 0))).camera.calls =
        [CameraCall.ProcessMouseMovement 0 0, CameraCall.ProcessMouseMovement 10 (-20)] := by
  have h0 : (initialGlobals 0).mouseControlsCamera = true := rfl
  have h1 := mouse_callback_offset 700 300 (initialGlobals 0) h0
  have hc : (mouse_callback 700 300 (initialGlobals 0)).mouseControlsCamera = true := by
    simp [mouse_callback, initialGlobals]
  have h2 := mouse_callback_offset 710 320 (mouse_callback 700 300 (initialGlobals 0)) hc
  refine ⟨h0, ?_⟩
  rw [h2.1, h1.1, h1.2.2.1, h1.2.2.2.1, h1.2.2.2.2]
  simp [initialGlobals]
  norm_num

/-! ## Input router: the toggle key -/

/-- C7. For every key event and every prior state, `key_callback` flips
`mouseControlsCamera` exactly when the event is a press of the space key and leaves it
unchanged otherwise.  After a toggle the cursor mode is `GLFW_CURSOR_DISABLED` with
`lastX`/`lastY` holding the current pointer position when capture mode was entered, and
`GLFW_CURSOR_NORMAL` with `lastX`/`lastY` untouched when it was left.  Two consecutive
toggle presses restore the flag. -/
theorem key_callback_toggle (cursorPos cursorPos2 : ℚ × ℚ)
    (key scancode action mods scancode2 mods2 : Int) (g : Globals) :
    (key_callback cursorPos key scancode action mods g).mouseControlsCamera =
        (if key = GLFW_KEY_SPACE ∧ action = GLFW_PRESS then !g.mouseControlsCamera
         else g.mouseControlsCamera) ∧
      (key_callback cursorPos GLFW_KEY_SPACE scancode GLFW_PRESS mods g).cursorMode =
        (if g.mouseControlsCamera = true then GLFW_CURSOR_NORMAL else GLFW_CURSOR_DISABLED) ∧
      (key_callback cursorPos GLFW_KEY_SPACE scancode GLFW_PRESS mods g).lastX =
        (if g.mouseControlsCamera = true then g.lastX else cursorPos.1) ∧
      (key_callback cursorPos GLFW_KEY_SPACE scancode GLFW_PRESS mods g).lastY =
        (if g.mouseControlsCamera = true then g.lastY else cursorPos.2) ∧
      (key_callback cursorPos2 GLFW_KEY_SPACE scancode2 GLFW_PRESS mods2
          (key_callback cursorPos GLFW_KEY_SPACE scancode GLFW_PRESS mods g)).mouseControlsCamera =
        g.mouseControlsCamera := by
  refine ⟨?_, ?_, ?_, ?_, ?_⟩
  · simp only [key_callback]
    split_ifs <;> simp_all
  · cases hm : g.mouseControlsCamera <;> simp [key_callback, hm]
  · cases hm : g.mouseControlsCamera <;> simp [key_callback, hm]
  · cases hm : g.mouseControlsCamera <;> simp [key_callback, hm]
  · cases hm : g.mouseControlsCamera <;> simp [key_callback, hm]

/-- C1, as stated, fails: after start-up, one pointer-motion event, a press of the space
key (capture off) and a second press with the pointer at (100, 100) (capture on again),
the first pointer-motion event, at (110, 100), routes the offset `(10, 0)`, not `(0, 0)`. -/
theorem first_motion_after_reentry_not_zero :
    afterLeave.mouseControlsCamera = false ∧
      afterReentry.mouseControlsCamera = true ∧
      (mouse_callback 110 100 afterReentry).camera.calls =
        afterReentry.camera.calls ++ [CameraCall.ProcessMouseMovement 10 0] ∧
      (mouse_callback 110 100 afterReentry).camera.calls ≠
        afterReentry.camera.calls ++ [CameraCall.ProcessMouseMovement 0 0] := by
  simp [afterReentry, afterLeave, afterFirstMotion, initialGlobals, key_callback, mouse_callback,
    Camera.ProcessMouseMovement]
  norm_num

/-- C1, amended.  A press of the space key while capture mode is off, with the pointer
at `cursorPos`, switches capture mode on, stores `cursorPos` in `lastX`/`lastY` and leaves
`firstMouse` as it was.  The first pointer-motion event after it, at `(x1, y1)`, routes
`(0, 0)` when `firstMouse` was still set, and otherwise the offset from the position
sampled at the toggle, `(x1 - cursorPos.1, cursorPos.2 - y1)`.  The second event, at
`(x2, y2)`, routes its full delta `(x2 - x1, y1 - y2)`. -/
theorem first_motion_after_toggle_on (cursorPos : ℚ × ℚ) (scancode mods : Int)
    (x1 y1 x2 y2 : ℚ) (g : Globals) (hoff : g.mouseControlsCamera = false) :
    (key_callback cursorPos GLFW_KEY_SPACE scancode GLFW_PRESS mods g).mouseControlsCamera = true ∧
      (key_callback cursorPos GLFW_KEY_SPACE scancode GLFW_PRESS mods g).firstMouse = g.firstMouse ∧
      (mouse_callback x1 y1
          (key_callback cursorPos GLFW_KEY_SPACE scancode GLFW_PRESS mods g)).camera.calls =
        g.camera.calls ++
          [if g.firstMouse = true then CameraCall.ProcessMouseMovement 0 0
           else CameraCall.ProcessMouseMovement (x1 - cursorPos.1) (cursorPos.2 - y1)] ∧
      (mouse_callback x2 y2 (mouse_callback x1 y1
          (key_callback cursorPos GLFW_KEY_SPACE scancode GLFW_PRESS mods g))).camera.calls =
        (mouse_callback x1 y1
          (key_callback cursorPos GLFW_KEY_SPACE scancode GLFW_PRESS mods g)).camera.calls ++
          [CameraCall.ProcessMouseMovement (x2 - x1) (y1 - y2)] := by
  cases hf : g.firstMouse <;>
    simp [key_callback, mouse_callback, hoff, hf, Camera.ProcessMouseMovement]

/-- C1, amended, at concrete inputs: re-entry after pointer motion has been handled
(`afterLeave`), pointer at (100, 100) at the toggle, then events at (110, 100) and
(110, 130). -/
theorem first_motion_after_toggle_on_witness :
    afterLeave.mouseControlsCamera = false ∧
      (mouse_callback 110 130 (mouse_callback 110 100
          (key_callback (100, 100) GLFW_KEY_SPACE 0 GLFW_PRESS 0 afterLeave))).camera.calls =
        (mouse_callback 110 100
          (key_callback (100, 100) GLFW_KEY_SPACE 0 GLFW_PRESS 0 afterLeave)).camera.calls ++
          [CameraCall.ProcessMouseMovement (110 - 110) (100 - 130)] :=
  have h : afterLeave.mouseControlsCamera = false := by
    simp [afterLeave, afterFirstMotion, initialGlobals, key_callback, mouse_callback]
  ⟨h, (first_motion_after_toggle_on (100, 100) 0 0 110 100 110 130 afterLeave h).2.2.2⟩

/-! ## Input router: held keys -/

theorem matrixStep_camera (ext : Externals) (g : Globals) :
    (matrixStep ext g).camera = g.camera := by
  simp only [matrixStep]
  split_ifs <;> rfl

theorem loopBody_pushed_calls (ext : Externals) (inp : FrameInput) (g : Globals) :
    (loopBody ext inp g).2.camera.calls =
      g.camera.calls ++ keyboardCalls inp.glfwGetKey (inp.currentFrame - g.lastFrame) := by
  simp only [loopBody, matrixStep_camera, processInput_calls]

/-- C5. For every report `glfwGetKey` of the key states and every `deltaTime`,
`processInput` appends to the calls the Camera has received exactly the list
`keyboardCalls`: one `ProcessKeyboard(direction, deltaTime)` per movement key reported as
pressed and none for the others (W, S, A, D, R, F bound to FORWARD, BACKWARD, LEFT,
RIGHT, UP, DOWN), in that fixed order, so that keys held together each get their own call
(W and D held: FORWARD then RIGHT).  In an iteration of the render loop the `deltaTime`
carried is `currentFrame - lastFrame`. -/
theorem processInput_routes_keys (ext : Externals) (inp : FrameInput)
    (glfwGetKey : Int → Int) (deltaTime : ℚ) (g : Globals) :
    (processInput glfwGetKey g).camera.calls =
        g.camera.calls ++ keyboardCalls glfwGetKey g.deltaTime ∧
      (∀ kd ∈ movementKeys,
        (keyboardCalls glfwGetKey deltaTime).count (CameraCall.ProcessKeyboard kd.2 deltaTime) =
          if glfwGetKey kd.1 = GLFW_PRESS then 1 else 0) ∧
      (∀ c ∈ keyboardCalls glfwGetKey deltaTime,
        ∃ kd ∈ movementKeys, glfwGetKey kd.1 = GLFW_PRESS ∧
          c = CameraCall.ProcessKeyboard kd.2 deltaTime) ∧
      keyboardCalls keysWD deltaTime =
        [CameraCall.ProcessKeyboard Camera_Movement.FORWARD deltaTime,
         CameraCall.ProcessKeyboard Camera_Movement.RIGHT deltaTime] ∧
      (loopBody ext inp g).2.camera.calls =
        g.camera.calls ++ keyboardCalls inp.glfwGetKey (inp.currentFrame - g.lastFrame) := by
  refine ⟨processInput_calls glfwGetKey g, ?_, ?_, ?_, loopBody_pushed_calls ext inp g⟩
  · intro kd hkd
    simp only [movementKeys, List.mem_cons, List.mem_singleton, List.not_mem_nil, or_false] at hkd
    rw [keyboardCalls_eq]
    rcases hkd with rfl | rfl | rfl | rfl | rfl | rfl <;>
      simp [List.count_append, apply_ite (List.count _), List.count_cons]
  · intro c hc
    simp only [keyboardCalls, List.mem_map, List.mem_filter, decide_eq_true_eq] at hc
    obtain ⟨kd, ⟨hmem, hpress⟩, rfl⟩ := hc
    exact ⟨kd, hmem, hpress, rfl⟩
  · simp [keyboardCalls, movementKeys, keysWD]

/-- C4, as stated, fails: with capture mode off (`leftMidFrame`, reached by one press of
the space key after start-up) and `W` held, `processInput` calls
`ProcessKeyboard(FORWARD, 1/60)` on the Camera. -/
theorem keyboard_routed_outside_capture :
    leftMidFrame.mouseControlsCamera = false ∧
      (processInput onlyW leftMidFrame).camera.calls =
        leftMidFrame.camera.calls ++
          [CameraCall.ProcessKeyboard Camera_Movement.FORWARD (1 / 60)] ∧
      (processInput onlyW leftMidFrame).camera ≠ leftMidFrame.camera := by
  have h : (processInput onlyW leftMidFrame).camera.calls =
      leftMidFrame.camera.calls ++
        [CameraCall.ProcessKeyboard Camera_Movement.FORWARD (1 / 60)] := by
    rw [processInput_calls]
    simp [keyboardCalls, movementKeys, onlyW, leftMidFrame]
  refine ⟨?_, h, ?_⟩
  · simp [leftMidFrame, leftAtStart, initialGlobals, key_callback]
  · intro hc
    rw [hc] at h
    simp at h

/-- C4, amended.  In every state where capture mode is off, a pointer-motion event
changes nothing (no Camera call, no other global); held-key polling is not gated by
capture mode: `processInput` still routes one `ProcessKeyboard` call per pressed
movement key. -/
theorem capture_gates_pointer_only (xpos ypos : ℚ) (glfwGetKey : Int → Int) (g : Globals)
    (hoff : g.mouseControlsCamera = false) :
    mouse_callback xpos ypos g = g ∧
      (processInput glfwGetKey g).camera.calls =
        g.camera.calls ++ keyboardCalls glfwGetKey g.deltaTime :=
  ⟨mouse_callback_of_not_captured xpos ypos g hoff, processInput_calls glfwGetKey g⟩

/-- C4, amended, at a concrete input: capture mode off, pointer moved to (5, 7), `W`
held. -/
theorem capture_gates_pointer_only_witness :
    leftMidFrame.mouseControlsCamera = false ∧
      mouse_callback 5 7 leftMidFrame = leftMidFrame ∧
      (processInput onlyW leftMidFrame).camera.calls =
        leftMidFrame.camera.calls ++ keyboardCalls onlyW leftMidFrame.deltaTime :=
  have h : leftMidFrame.mouseControlsCamera = false := by
    simp [leftMidFrame, leftAtStart, initialGlobals, key_callback]
  ⟨h, capture_gates_pointer_only 5 7 onlyW leftMidFrame h⟩

/-! ## Frame driver: the matrix cache -/

theorem matrixStep_of_dirty (ext : Externals) (g : Globals) (h : g.cameraDirty = true) :
    Consistent ext (matrixStep ext g).camera (matrixStep ext g).view
      (matrixStep ext g).projection (matrixStep ext g).ivpm := by
  simp [matrixStep, h, Consistent]

theorem loopBody_pushed_fresh (ext : Externals) (inp : FrameInput) (g : Globals) :
    (loopBody ext inp g).2.Fresh ext := by
  have hd := processInput_cameraDirty inp.glfwGetKey
    { g with deltaTime := inp.currentFrame - g.lastFrame, lastFrame := inp.currentFrame }
  exact ⟨hd, matrixStep_of_dirty ext _ hd⟩

theorem renderLoop_pushed_fresh (ext : Externals) (inputs : List FrameInput) :
    ∀ g : Globals, ∀ p ∈ (renderLoop ext inputs g).2, p.Fresh ext := by
  induction inputs with
  | nil => intro g p hp; simp [renderLoop] at hp
  | cons inp rest ih =>
    intro g p hp
    by_cases hc : g.windowShouldClose = true
    · simp [renderLoop, hc] at hp
    · simp only [renderLoop, hc, Bool.false_eq_true, if_false, List.mem_cons] at hp
      rcases hp with rfl | hp
      · exact loopBody_pushed_fresh ext inp g
      · exact ih _ p hp

/-- C10. In every iteration of the render loop, whatever the globals on entry (so also
after the previous iteration's event poll ran callbacks and `cameraDirty` was cleared)
and whatever keys are held, `cameraDirty` is true when the matrix step is reached, and the
`view`, `projection` and `ivpm` handed to the shader are `GetViewMatrix()`,
`perspective(radians(Zoom), 1920/1080, 0.1, 100)` and `inverse(projection * view)` of the
Camera as it is at that moment, which has received every call routed so far.  The same
holds of every iteration of a run of the loop on any sequence of inputs. -/
theorem pushed_matrices_fresh (ext : Externals) (inp : FrameInput)
    (inputs : List FrameInput) (g : Globals) :
    (loopBody ext inp g).2.Fresh ext ∧
      (loopBody ext inp g).2.camera.calls =
        g.camera.calls ++ keyboardCalls inp.glfwGetKey (inp.currentFrame - g.lastFrame) ∧
      (∀ p ∈ (renderLoop ext inputs g).2, p.Fresh ext) ∧
      (g.windowShouldClose = false →
        (renderLoop ext (inp :: inputs) g).2 =
          (loopBody ext inp g).2 :: (renderLoop ext inputs (loopBody ext inp g).1).2) :=
  ⟨loopBody_pushed_fresh ext inp g, loopBody_pushed_calls ext inp g,
    renderLoop_pushed_fresh ext inputs g, fun h => by simp [renderLoop, h]⟩

/-- C3 evaluated on the code: an iteration always reaches the matrix step with
`cameraDirty` true, also when no key is held and the flag was false on entry; in a run
of two idle iterations from the start-up globals the Camera receives no call, yet both
iterations find the flag set and recompute the three matrices. -/
theorem idle_frame_recomputes (ext : Externals) (mat0 : Mat4) (t1 t2 : ℚ)
    (inp : FrameInput) (g : Globals) :
    (loopBody ext inp g).2.dirtyAtMatrixStep = true ∧
      (renderLoop ext [idleFrame t1, idleFrame t2] (initialGlobals mat0)).2.map
          Pushed.dirtyAtMatrixStep = [true, true] ∧
      (renderLoop ext [idleFrame t1, idleFrame t2] (initialGlobals mat0)).2.map
          (fun p => p.camera.calls) = [[], []] := by
  refine ⟨(loopBody_pushed_fresh ext inp g).1, ?_, ?_⟩
  · simp [renderLoop, loopBody, idleFrame, initialGlobals, glfwPollEvents, matrixStep,
      processInput_eq]
  · simp [renderLoop, loopBody, idleFrame, initialGlobals, glfwPollEvents, matrixStep,
      processInput_eq, keyboardCalls_noKeys]

/-- C2 evaluated on the code: one iteration from the start-up globals whose event poll
delivers pointer motion at (960, 540) and then at (970, 540) ends with `cameraDirty`
false and a Camera that has received `ProcessMouseMovement(10, 0)`, while the cached
matrices are those of the Camera before any call; the cached `view` is the current
`GetViewMatrix()` only if that call left the view matrix as it was. -/
theorem cache_stale_after_pointer_motion (ext : Externals) (mat0 : Mat4) :
    (renderLoop ext [lookFrame] (initialGlobals mat0)).1.cameraDirty = false ∧
      (renderLoop ext [lookFrame] (initialGlobals mat0)).1.camera.calls =
        [CameraCall.ProcessMouseMovement 0 0, CameraCall.ProcessMouseMovement 10 0] ∧
      Consistent ext { calls := [] }
        (renderLoop ext [lookFrame] (initialGlobals mat0)).1.view
        (renderLoop ext [lookFrame] (initialGlobals mat0)).1.projection
        (renderLoop ext [lookFrame] (initialGlobals mat0)).1.ivpm ∧
      ((renderLoop ext [lookFrame] (initialGlobals mat0)).1.view =
          ext.GetViewMatrix (renderLoop ext [lookFrame] (initialGlobals mat0)).1.camera ↔
        ext.GetViewMatrix
            { calls := [CameraCall.ProcessMouseMovement 0 0,
                        CameraCall.ProcessMouseMovement 10 0] } =
          ext.GetViewMatrix { calls := [] }) := by
  have hg : (renderLoop ext [lookFrame] (initialGlobals mat0)).1 =
      { (glfwPollEvents lookFrame.events
          (matrixStep ext (processInput lookFrame.glfwGetKey
            { initialGlobals mat0 with
              deltaTime := lookFrame.currentFrame - (initialGlobals mat0).lastFrame,
              lastFrame := lookFrame.currentFrame }))) with cameraDirty := false } := by
    simp [renderLoop, loopBody, initialGlobals]
  rw [hg]
  simp [lookFrame, glfwPollEvents, dispatch, mouse_callback, matrixStep, processInput_eq,
    keyboardCalls_noKeys, initialGlobals, Camera.ProcessMouseMovement, Consistent]
  have h10 : (970 : ℚ) - 960 = 10 := by norm_num
  rw [h10]
  exact ⟨rfl, eq_comm⟩

/-! ## Sun direction -/

theorem rotate_negX (v : Vec3) (angle : ℝ) :
    rotate v angle { x := -1, y := 0, z := 0 } = rotateAboutNegX angle v := by
  ext <;> simp [rotate, normalize, rotateAboutNegX]

theorem rotate_posY (v : Vec3) (angle : ℝ) :
    rotate v angle { x := 0, y := 1, z := 0 } = rotateAboutY angle v := by
  ext <;> simp [rotate, normalize, rotateAboutY]

/-- C8. Over real trigonometry, for every `sunAltitude` and `sunAzimuth` the vector
handed to the `sunDirection` uniform is the reference vector `(0, 0, 1)` rotated first by
`sunAltitude` about the world X axis (taken with the direction `(-1, 0, 0)` the code
passes) and then by `sunAzimuth` about the world Y axis; in coordinates it is
`(sin az * cos alt, sin alt, cos az * cos alt)`.  Altitude 0 and azimuth 0 give
`(0, 0, 1)` itself. -/
theorem sunDirection_rotations (sunAltitude sunAzimuth : ℝ) :
    sunDirection sunAltitude sunAzimuth =
        rotateAboutY sunAzimuth (rotateAboutNegX sunAltitude { x := 0, y := 0, z := 1 }) ∧
      sunDirection sunAltitude sunAzimuth =
        { x := Real.sin sunAzimuth * Real.cos sunAltitude
          y := Real.sin sunAltitude
          z := Real.cos sunAzimuth * Real.cos sunAltitude } ∧
      sunDirection 0 0 = { x := 0, y := 0, z := 1 } := by
  have h : ∀ a b : ℝ, sunDirection a b =
      rotateAboutY b (rotateAboutNegX a { x := 0, y := 0, z := 1 }) := by
    intro a b
    simp only [sunDirection, rotate_negX, rotate_posY]
  refine ⟨h _ _, ?_, ?_⟩
  · rw [h]
    ext <;> simp [rotateAboutY, rotateAboutNegX]
  · rw [h]
    ext <;> simp [rotateAboutY, rotateAboutNegX]

/-! ## Shader program construction -/

theorem checkCompileErrors_stage (drv : GLDriver) (shader : Nat) (type : String) (r : Run)
    (h : type ≠ "PROGRAM") :
    checkCompileErrors drv shader type r =
      { gl := r.gl ++ GLCall.GetShaderiv shader ::
          (if drv.compileStatus shader = 0 then [GLCall.GetShaderInfoLog shader] else [])
        cout := r.cout ++
          (if drv.compileStatus shader = 0 then
            ["ERROR::SHADER_COMPILATION_ERROR of type: " ++ type ++ "\n" ++
              drv.shaderInfoLog shader ++
              "\n -- --------------------------------------------------- -- "]
           else []) } := by
  by_cases hs : drv.compileStatus shader = 0 <;> simp [checkCompileErrors, h, hs]

theorem checkCompileErrors_program (drv : GLDriver) (shader : Nat) (r : Run) :
    checkCompileErrors drv shader "PROGRAM" r =
      { gl := r.gl ++ GLCall.GetProgramiv shader ::
          (if drv.linkStatus shader = 0 then [GLCall.GetProgramInfoLog shader] else [])
        cout := r.cout ++
          (if drv.linkStatus shader = 0 then
            ["ERROR::PROGRAM_LINKING_ERROR of type: " ++ "PROGRAM" ++ "\n" ++
              drv.programInfoLog shader ++
              "\n -- --------------------------------------------------- -- "]
           else []) } := by
  by_cases hs : drv.linkStatus shader = 0 <;> simp [checkCompileErrors, hs]

/-- C9. For every driver (so every combination of vertex-compile, fragment-compile and
link status) and every outcome of reading the two files, the constructor returns: the GL
commands it issues are the same whatever the statuses (create, source and compile both
stages, create the program, attach both stages, link, delete both stages), its handle
`ID` is the program object, and after the file-read message, if any, it writes one
diagnostic for exactly the steps whose status is failure, those of VERTEX, FRAGMENT and
PROGRAM in that order.  If it writes nothing, the link status of `ID` is success.  Every
combination of the three statuses is the answer of some driver (`driverWith`); with a
failed vertex stage and a failed link the output is the VERTEX and the PROGRAM
diagnostic. -/
theorem shader_construction_diagnostics (drv : GLDriver) (vertexCode fragmentCode what : String)
    (files : Except String (String × String)) (vertexStatus fragmentStatus linkStatus : Int) :
    ((Shader.Shader drv (Except.ok (vertexCode, fragmentCode))).2.gl.filter
        (fun c => !c.isQuery) =
      [GLCall.CreateShader GL_VERTEX_SHADER,
       GLCall.ShaderSource (drv.createShader GL_VERTEX_SHADER) vertexCode,
       GLCall.CompileShader (drv.createShader GL_VERTEX_SHADER),
       GLCall.CreateShader GL_FRAGMENT_SHADER,
       GLCall.ShaderSource (drv.createShader GL_FRAGMENT_SHADER) fragmentCode,
       GLCall.CompileShader (drv.createShader GL_FRAGMENT_SHADER),
       GLCall.CreateProgram,
       GLCall.AttachShader drv.createProgram (drv.createShader GL_VERTEX_SHADER),
       GLCall.AttachShader drv.createProgram (drv.createShader GL_FRAGMENT_SHADER),
       GLCall.LinkProgram drv.createProgram,
       GLCall.DeleteShader (drv.createShader GL_VERTEX_SHADER),
       GLCall.DeleteShader (drv.createShader GL_FRAGMENT_SHADER)]) ∧
      ((Shader.Shader drv (Except.error what)).2.gl.filter (fun c => !c.isQuery) =
        (Shader.Shader drv (Except.ok ("", ""))).2.gl.filter (fun c => !c.isQuery)) ∧
      (Shader.Shader drv files).1.ID = drv.createProgram ∧
      (Shader.Shader drv (Except.ok (vertexCode, fragmentCode))).2.cout =
        expectedDiagnostics drv ∧
      (Shader.Shader drv (Except.error what)).2.cout =
        ("ERROR::SHADER::FILE_NOT_SUCCESFULLY_READ: " ++ what) :: expectedDiagnostics drv ∧
      ((Shader.Shader drv files).2.cout = [] →
        drv.linkStatus (Shader.Shader drv files).1.ID ≠ 0 ∧
          drv.compileStatus (drv.createShader GL_VERTEX_SHADER) ≠ 0 ∧
          drv.compileStatus (drv.createShader GL_FRAGMENT_SHADER) ≠ 0) ∧
      (buildSteps (driverWith vertexStatus fragmentStatus linkStatus)).map BuildStep.status =
        [vertexStatus, fragmentStatus, linkStatus] ∧
      (Shader.Shader (driverWith 0 1 0) (Except.ok (vertexCode, fragmentCode))).2.cout =
        ["ERROR::SHADER_COMPILATION_ERROR of type: VERTEX\nvertex log" ++
            "\n -- --------------------------------------------------- -- ",
         "ERROR::PROGRAM_LINKING_ERROR of type: PROGRAM\nlink log" ++
            "\n -- --------------------------------------------------- -- "] := by
  have hv : ("VERTEX" : String) ≠ "PROGRAM" := by decide
  have hf : ("FRAGMENT" : String) ≠ "PROGRAM" := by decide
  refine ⟨?_, ?_, ?_, ?_, ?_, ?_, ?_, ?_⟩
  · simp only [Shader.Shader, checkCompileErrors_stage _ _ _ _ hv,
      checkCompileErrors_stage _ _ _ _ hf, checkCompileErrors_program]
    by_cases h1 : drv.compileStatus (drv.createShader GL_VERTEX_SHADER) = 0 <;>
    by_cases h2 : drv.compileStatus (drv.createShader GL_FRAGMENT_SHADER) = 0 <;>
    by_cases h3 : drv.linkStatus drv.createProgram = 0 <;>
    simp [h1, h2, h3, List.filter_cons, GLCall.isQuery]
  · simp only [Shader.Shader, checkCompileErrors_stage _ _ _ _ hv,
      checkCompileErrors_stage _ _ _ _ hf, checkCompileErrors_program]
  · rfl
  · simp only [Shader.Shader, checkCompileErrors_stage _ _ _ _ hv,
      checkCompileErrors_stage _ _ _ _ hf, checkCompileErrors_program, expectedDiagnostics,
      buildSteps]
    by_cases h1 : drv.compileStatus (drv.createShader GL_VERTEX_SHADER) = 0 <;>
    by_cases h2 : drv.compileStatus (drv.createShader GL_FRAGMENT_SHADER) = 0 <;>
    by_cases h3 : drv.linkStatus drv.createProgram = 0 <;>
    simp [h1, h2, h3]
  · simp only [Shader.Shader, checkCompileErrors_stage _ _ _ _ hv,
      checkCompileErrors_stage _ _ _ _ hf, checkCompileErrors_program, expectedDiagnostics,
      buildSteps]
    by_cases h1 : drv.compileStatus (drv.createShader GL_VERTEX_SHADER) = 0 <;>
    by_cases h2 : drv.compileStatus (drv.createShader GL_FRAGMENT_SHADER) = 0 <;>
    by_cases h3 : drv.linkStatus drv.createProgram = 0 <;>
    simp [h1, h2, h3]
  · intro hnone
    have hid : (Shader.Shader drv files).1.ID = drv.createProgram := rfl
    rw [hid]
    cases files with
    | error e =>
      simp [Shader.Shader, checkCompileErrors_stage _ _ _ _ hv,
        checkCompileErrors_stage _ _ _ _ hf, checkCompileErrors_program] at hnone
    | ok src =>
      simp only [Shader.Shader, checkCompileErrors_stage _ _ _ _ hv,
        checkCompileErrors_stage _ _ _ _ hf, checkCompileErrors_program] at hnone
      by_cases h1 : drv.compileStatus (drv.createShader GL_VERTEX_SHADER) = 0 <;>
      by_cases h2 : drv.compileStatus (drv.createShader GL_FRAGMENT_SHADER) = 0 <;>
      by_cases h3 : drv.linkStatus drv.createProgram = 0 <;>
      simp [h1, h2, h3] at hnone ⊢
  · simp [buildSteps, driverWith]
  · simp [Shader.Shader, checkCompileErrors_stage _ _ _ _ hv,
      checkCompileErrors_stage _ _ _ _ hf, checkCompileErrors_program, driverWith]

end VolumetricCloudDemo
